import Mathlib

/-!
Shallow embedding of the recipebuddy ingredient pipeline
(`src/recipe_buddy/schemas.py` and `src/recipe_buddy/notion.py`).

Raw Notion property values are JSON-like data; the Python code navigates
them with `dict.get`, list subscripting and `str.lower`, so the embedding
models those operations together with the Python exceptions they can
raise (`AttributeError`, `TypeError`, `IndexError`, `KeyError`) and
pydantic's `ValidationError`.
-/

namespace RecipeBuddy

/-- A JSON-like value, as produced by `response.json()` and stored in a
page's property bag.  Numbers are modelled as rationals: the Notion
number properties used here carry ordinary decimal numbers and the
pipeline never computes with them, only passes them through. -/
inductive Json where
  | null
  | bool (b : Bool)
  | num (q : ℚ)
  | str (s : String)
  | arr (elems : List Json)
  | obj (fields : List (String × Json))

/-- Python exception classes that the extraction / validation pipeline
can raise.  `validationError` carries the kinds of the per-field errors
pydantic collected, in field-declaration order. -/
inductive VKind where
  | missingRequiredField
  | invalidEnum
  | invalidType
  deriving DecidableEq

inductive PyErr where
  | attributeError
  | typeError
  | indexError
  | keyError
  | validationError (kinds : List VKind)
  deriving DecidableEq

/-- First-match association lookup, modelling `dict.get(key, default)`
on a Python dict (keys are unique, so first match is the match). -/
def lookupD (fields : List (String × Json)) (key : String) (dflt : Json) : Json :=
  match fields.find? (fun f => f.1 == key) with
  | some f => f.2
  | none => dflt

/-- `page.properties.get(key, {})`: the pydantic `Page` model guarantees
`properties : dict[str, dict[str, Any]]`, so this lookup is total and
yields an inner dict. -/
def propGet (props : List (String × List (String × Json))) (key : String) :
    List (String × Json) :=
  match props.find? (fun f => f.1 == key) with
  | some f => f.2
  | none => []

/-- `v.get(key, dflt)` on an arbitrary value: only dicts have a `get`
method; anything else raises `AttributeError`. -/
def dictGet (v : Json) (key : String) (dflt : Json) : Except PyErr Json :=
  match v with
  | .obj fields => .ok (lookupD fields key dflt)
  | _ => .error .attributeError

/-- `v[0]` on an arbitrary value: list → first element or `IndexError`;
string → first character or `IndexError`; dict → `KeyError` (0 is not a
string key); anything else → `TypeError`. -/
def sub0 (v : Json) : Except PyErr Json :=
  match v with
  | .arr [] => .error .indexError
  | .arr (x :: _) => .ok x
  | .str s => if s = "" then .error .indexError else .ok (.str (s.take 1))
  | .obj _ => .error .keyError
  | _ => .error .typeError

/-- `str.lower()` on the ASCII property values this pipeline handles:
lower-case every character. -/
def lowerString (s : String) : String := String.mk (s.data.map Char.toLower)

/-- `v.lower()`: only strings have `lower`; anything else (including
`None` for an absent value) raises `AttributeError`. -/
def pyLower (v : Json) : Except PyErr Json :=
  match v with
  | .str s => .ok (.str (lowerString s))
  | _ => .error .attributeError

/-- The `IngredientType` StrEnum of `schemas.py`. -/
inductive IngredientType where
  | protein
  | dairy
  | fruit
  | vegetable
  | grain
  | legumePulse
  | bakingIngredient
  | condimentSauce
  | nutSeed
  | herbSpice
  | oilFat
  | other
  deriving DecidableEq

/-- The string value of each `IngredientType` member. -/
def IngredientType.label : IngredientType → String
  | .protein => "Protein"
  | .dairy => "Dairy"
  | .fruit => "Fruit"
  | .vegetable => "Vegetable"
  | .grain => "Grain"
  | .legumePulse => "Legume/Pulse"
  | .bakingIngredient => "Baking Ingredient"
  | .condimentSauce => "Condiment/Sauce"
  | .nutSeed => "Nuts/Seeds"
  | .herbSpice => "Herb/Spice"
  | .oilFat => "Oil/Fat"
  | .other => "Other"

def IngredientType.all : List IngredientType :=
  [.protein, .dairy, .fruit, .vegetable, .grain, .legumePulse, .bakingIngredient,
   .condimentSauce, .nutSeed, .herbSpice, .oilFat, .other]

/-- Look an ingredient category up by its string value, as pydantic does
when validating a StrEnum field. -/
def IngredientType.fromLabel (s : String) : Option IngredientType :=
  IngredientType.all.find? (fun t => t.label == s)

/-- The `UnitOfMeasurement` StrEnum of `schemas.py` (single member). -/
inductive UnitOfMeasurement where
  | grams
  deriving DecidableEq

def UnitOfMeasurement.value : UnitOfMeasurement → String
  | .grams => "grams"

/-- The validated `Ingredient` pydantic model of `schemas.py`. -/
structure Ingredient where
  name : String
  type : IngredientType
  units_of_measurement : UnitOfMeasurement
  calories_per_100g : ℚ
  protein_per_100g : ℚ
  fat_per_100g : ℚ
  carbs_per_100g : ℚ
  shelf_life_room : Option Int
  shelf_life_fridge : Option Int
  shelf_life_freezer : Option Int
  deriving DecidableEq

/-- pydantic validation of a `str` field: a string passes through, a
null is a missing required value, any other shape is a type error. -/
def validateStr : Json → Except VKind String
  | .str s => .ok s
  | .null => .error .missingRequiredField
  | _ => .error .invalidType

/-- pydantic validation of the `type: IngredientType` field: only a
string equal to one of the twelve member values is accepted; any other
input (null included) yields the enum-membership error. -/
def validateType : Json → Except VKind IngredientType
  | .str s =>
    match IngredientType.fromLabel s with
    | some t => .ok t
    | none => .error .invalidEnum
  | _ => .error .invalidEnum

/-- pydantic validation of `units_of_measurement: UnitOfMeasurement`:
only the string "grams" is a member. -/
def validateUnits : Json → Except VKind UnitOfMeasurement
  | .str s => if s = "grams" then .ok .grams else .error .invalidEnum
  | _ => .error .invalidEnum

/-- pydantic validation of a required `float` field.  The Notion number
properties feeding these fields hold a JSON number or null; pydantic's
lax coercion of numeric strings is never exercised and is not
modelled. -/
def validateFloat : Json → Except VKind ℚ
  | .num q => .ok q
  | .null => .error .missingRequiredField
  | _ => .error .invalidType

/-- pydantic validation of an `int | None` field: null passes through as
`None`, an integer-valued number is accepted, a fractional number or any
other shape is rejected. -/
def validateOptInt : Json → Except VKind (Option Int)
  | .null => .ok none
  | .num q => if q.den = 1 then .ok (some q.num) else .error .invalidType
  | _ => .error .invalidType

/-- Error-accumulating application, modelling how pydantic validates all
fields of a model and collects every field error, in field order. -/
def vapp {α β : Type} (f : Except (List VKind) (α → β)) (x : Except VKind α) :
    Except (List VKind) β :=
  match f, x with
  | .ok g, .ok a => .ok (g a)
  | .ok _, .error e => .error [e]
  | .error es, .ok _ => .error es
  | .error es, .error e => .error (es ++ [e])

/-- `Ingredient(...)`: validate every field in declaration order,
collecting all per-field errors; succeed only when every field
validates. -/
def Ingredient.construct (nameV typeV unitsV cal prot fatv carb slR slFr slFz : Json) :
    Except (List VKind) Ingredient :=
  vapp (vapp (vapp (vapp (vapp (vapp (vapp (vapp (vapp (vapp
    (.ok Ingredient.mk)
    (validateStr nameV))
    (validateType typeV))
    (validateUnits unitsV))
    (validateFloat cal))
    (validateFloat prot))
    (validateFloat fatv))
    (validateFloat carb))
    (validateOptInt slR))
    (validateOptInt slFr))
    (validateOptInt slFz)

/-- The `Page` pydantic model, reduced to the one field the parsing
logic reads.  The other fields (ids, timestamps, urls, ...) are
pass-through metadata never touched by `parse_ingredient_page` or
`parse_ingredient_data`.  The pydantic type `dict[str, dict[str, Any]]`
guarantees the outer two layers are dicts. -/
structure Page where
  properties : List (String × List (String × Json))

/-- The chained lookup
`properties.get("Name", {}).get("title", [{}])[0].get("text", {}).get("content")`,
used both for the display name in `parse_ingredient_data` and for the
`name` field in `parse_ingredient_page`. -/
def getNameChain (props : List (String × List (String × Json))) : Except PyErr Json :=
  match sub0 (lookupD (propGet props "Name") "title" (Json.arr [Json.obj []])) with
  | .error e => .error e
  | .ok elt =>
    match dictGet elt "text" (Json.obj []) with
    | .error e => .error e
    | .ok txt => dictGet txt "content" Json.null

/-- `properties.get(key, {}).get("select", {}).get("name")`. -/
def getSelectName (props : List (String × List (String × Json))) (key : String) :
    Except PyErr Json :=
  dictGet (lookupD (propGet props key) "select" (Json.obj [])) "name" Json.null

/-- `properties.get(key, {}).get("number")`: total, since both layers
are dicts. -/
def getNumber (props : List (String × List (String × Json))) (key : String) : Json :=
  lookupD (propGet props key) "number" Json.null

/-- `parse_ingredient_page`: extract every field (the name, type and
units chains can raise; the number lookups cannot), lowercase the units
value (raising `AttributeError` when it is not a string, in particular
when it is absent), then construct the `Ingredient`; a pydantic failure
surfaces as `ValidationError`. -/
def parse_ingredient_page (page : Page) : Except PyErr Ingredient :=
  match getNameChain page.properties with
  | .error e => .error e
  | .ok name =>
    match getSelectName page.properties "Type" with
    | .error e => .error e
    | .ok typeV =>
      match getSelectName page.properties "Units of Measurement" with
      | .error e => .error e
      | .ok unitsV =>
        let calories := getNumber page.properties "Calories per 100g"
        let protein := getNumber page.properties "Protein per 100g"
        let fatv := getNumber page.properties "Fat per 100g"
        let carbs := getNumber page.properties "Carbohydrate per 100g"
        let slRoom := getNumber page.properties "Shelf life room"
        let slFridge := getNumber page.properties "Shelf life fridge"
        let slFreezer := getNumber page.properties "Shelf life freezer"
        match pyLower unitsV with
        | .error e => .error e
        | .ok unitsLower =>
          match Ingredient.construct name typeV unitsLower calories protein fatv carbs
              slRoom slFridge slFreezer with
          | .ok ing => .ok ing
          | .error es => .error (.validationError es)

/-- The exception classes caught by the `except (AttributeError,
ValidationError)` clause in `parse_ingredient_data`. -/
def caught : PyErr → Bool
  | .attributeError => true
  | .validationError _ => true
  | _ => false

/-- `parse_ingredient_data`: for each page, first evaluate the
display-name chain (outside the try block, so any exception it raises
propagates), then try to parse the page; a caught exception drops the
page and logs its display name, an uncaught one aborts the whole batch.
The second component of the result collects the display names of the
dropped pages, modelling the diagnostic lines. -/
def parse_ingredient_data : List Page → Except PyErr (List Ingredient × List Json)
  | [] => .ok ([], [])
  | page :: rest =>
    match getNameChain page.properties with
    | .error e => .error e
    | .ok pname =>
      match parse_ingredient_page page with
      | .ok ing =>
        match parse_ingredient_data rest with
        | .error e => .error e
        | .ok (ings, logs) => .ok (ing :: ings, logs)
      | .error e =>
        if caught e then
          match parse_ingredient_data rest with
          | .error e2 => .error e2
          | .ok (ings, logs) => .ok (ings, pname :: logs)
        else .error e

/-- The successful outcome of a fallible computation, if any. -/
def successOf {ε α : Type} : Except ε α → Option α
  | .ok a => some a
  | .error _ => none

/-- The transport response model, reduced to the fields the pagination
loop reads (`results`, `next_cursor`, `has_more`). -/
structure NotionAPIDatabaseResponse where
  results : List Page
  next_cursor : Option String
  has_more : Bool

/-- The `while has_more` loop of `get_ingredients_data`, instrumented
with the list of cursors actually sent.  `fetch` abstracts
`_get_database_page` (a successful transport round trip); `fuel` bounds
the recursion depth of the embedding only — the theorems hold for every
sufficient fuel, mirroring the unbounded Python loop. -/
def getPagesLoop (fetch : Option String → NotionAPIDatabaseResponse) :
    Nat → Option String → Option (List Page × List (Option String))
  | 0, _ => none
  | fuel + 1, cursor =>
    let r := fetch cursor
    if r.has_more then
      match getPagesLoop fetch fuel r.next_cursor with
      | none => none
      | some (ps, trace) => some (r.results ++ ps, cursor :: trace)
    else
      some (r.results, [cursor])

/-- `get_ingredients_data`: run the pagination loop from an absent
cursor, then parse the accumulated pages. -/
def get_ingredients_data (fetch : Option String → NotionAPIDatabaseResponse)
    (fuel : Nat) : Option (Except PyErr (List Ingredient × List Json)) :=
  match getPagesLoop fetch fuel none with
  | none => none
  | some (ps, _) => some (parse_ingredient_data ps)

/-- The cursor sent on the i-th request: the first request carries no
cursor, each later request carries the continuation cursor of the
previous response. -/
def cursorChain (fetch : Option String → NotionAPIDatabaseResponse) : Nat → Option String
  | 0 => none
  | i + 1 => (fetch (cursorChain fetch i)).next_cursor

/-! Concrete fixtures, mirroring the records of the unit-test fixture
(`tests/unit/test_notion.py`) plus the degenerate shapes the theorems
exercise. -/

/-- The "Chicken" record of the test fixture. -/
def chickenPage : Page :=
  ⟨[("Name", [("title", Json.arr [Json.obj [("text", Json.obj [("content", Json.str "Chicken")])]])]),
    ("Type", [("select", Json.obj [("name", Json.str "Protein")])]),
    ("Units of Measurement", [("select", Json.obj [("name", Json.str "grams")])]),
    ("Calories per 100g", [("number", Json.num 165)]),
    ("Protein per 100g", [("number", Json.num 31)]),
    ("Fat per 100g", [("number", Json.num 4)]),
    ("Carbohydrate per 100g", [("number", Json.num 0)]),
    ("Shelf life room", [("number", Json.num 1)]),
    ("Shelf life fridge", [("number", Json.num 3)]),
    ("Shelf life freezer", [("number", Json.num 90)])]⟩

def chickenIngredient : Ingredient :=
  ⟨"Chicken", .protein, .grams, 165, 31, 4, 0, some 1, some 3, some 90⟩

/-- The "Rice" record of the test fixture (null shelf-life numbers). -/
def ricePage : Page :=
  ⟨[("Name", [("title", Json.arr [Json.obj [("text", Json.obj [("content", Json.str "Rice")])]])]),
    ("Type", [("select", Json.obj [("name", Json.str "Grain")])]),
    ("Units of Measurement", [("select", Json.obj [("name", Json.str "grams")])]),
    ("Calories per 100g", [("number", Json.num 130)]),
    ("Protein per 100g", [("number", Json.num 3)]),
    ("Fat per 100g", [("number", Json.num 1)]),
    ("Carbohydrate per 100g", [("number", Json.num 28)]),
    ("Shelf life room", [("number", Json.num 365)]),
    ("Shelf life fridge", [("number", Json.null)]),
    ("Shelf life freezer", [("number", Json.null)])]⟩

def riceIngredient : Ingredient :=
  ⟨"Rice", .grain, .grams, 130, 3, 1, 28, some 365, none, none⟩

/-- A record that is valid except for a null required number
("Calories per 100g": None), as in the invalid-page unit test. -/
def noCalPage : Page :=
  ⟨[("Name", [("title", Json.arr [Json.obj [("text", Json.obj [("content", Json.str "NoCal")])]])]),
    ("Type", [("select", Json.obj [("name", Json.str "Protein")])]),
    ("Units of Measurement", [("select", Json.obj [("name", Json.str "grams")])]),
    ("Calories per 100g", [("number", Json.null)]),
    ("Protein per 100g", [("number", Json.num 31)]),
    ("Fat per 100g", [("number", Json.num 4)]),
    ("Carbohydrate per 100g", [("number", Json.num 0)])]⟩

/-- The rational one half, built field by field so that its numerator
and denominator evaluate definitionally. -/
def halfRat : ℚ := ⟨1, 2, by decide, Nat.coprime_one_left 2⟩

/-- A record identical to the Chicken record except that its
"Shelf life room" number is the fractional value 1/2. -/
def fractionalShelfPage : Page :=
  ⟨[("Name", [("title", Json.arr [Json.obj [("text", Json.obj [("content", Json.str "Chicken")])]])]),
    ("Type", [("select", Json.obj [("name", Json.str "Protein")])]),
    ("Units of Measurement", [("select", Json.obj [("name", Json.str "grams")])]),
    ("Calories per 100g", [("number", Json.num 165)]),
    ("Protein per 100g", [("number", Json.num 31)]),
    ("Fat per 100g", [("number", Json.num 4)]),
    ("Carbohydrate per 100g", [("number", Json.num 0)]),
    ("Shelf life room", [("number", Json.num halfRat)]),
    ("Shelf life fridge", [("number", Json.num 3)]),
    ("Shelf life freezer", [("number", Json.num 90)])]⟩

/-- A record whose title text content is the empty string, all other
fields valid. -/
def emptyNamePage : Page :=
  ⟨[("Name", [("title", Json.arr [Json.obj [("text", Json.obj [("content", Json.str "")])]])]),
    ("Type", [("select", Json.obj [("name", Json.str "Protein")])]),
    ("Units of Measurement", [("select", Json.obj [("name", Json.str "grams")])]),
    ("Calories per 100g", [("number", Json.num 165)]),
    ("Protein per 100g", [("number", Json.num 31)]),
    ("Fat per 100g", [("number", Json.num 4)]),
    ("Carbohydrate per 100g", [("number", Json.num 0)])]⟩

def emptyNameIngredient : Ingredient :=
  ⟨"", .protein, .grams, 165, 31, 4, 0, none, none, none⟩

/-- A record whose "Name" property holds a present but empty title
list — the shape Notion produces for a page with an empty title. -/
def emptyTitlePage : Page :=
  ⟨[("Name", [("title", Json.arr [])])]⟩

/-- A record whose title list holds a bare string instead of a rich-text
object. -/
def strTitlePage : Page :=
  ⟨[("Name", [("title", Json.arr [Json.str "x"])])]⟩

/-- A record with only a name: every other extraction yields an absence
marker, in particular the units value. -/
def nameOnlyPage : Page :=
  ⟨[("Name", [("title", Json.arr [Json.obj [("text", Json.obj [("content", Json.str "Mystery")])]])])]⟩

/-- A family of records, valid except that the four per-100g numbers are
arbitrary rationals. -/
def numPage (c p f cb : ℚ) : Page :=
  ⟨[("Name", [("title", Json.arr [Json.obj [("text", Json.obj [("content", Json.str "Thing")])]])]),
    ("Type", [("select", Json.obj [("name", Json.str "Other")])]),
    ("Units of Measurement", [("select", Json.obj [("name", Json.str "grams")])]),
    ("Calories per 100g", [("number", Json.num c)]),
    ("Protein per 100g", [("number", Json.num p)]),
    ("Fat per 100g", [("number", Json.num f)]),
    ("Carbohydrate per 100g", [("number", Json.num cb)])]⟩

/-- A two-page paginated source: the first response carries a
continuation cursor and `has_more = true`, the second closes the
sequence. -/
def fetchTwo : Option String → NotionAPIDatabaseResponse
  | none => ⟨[chickenPage], some "cursor-1", true⟩
  | some _ => ⟨[ricePage], none, false⟩

/-! Helper lemmas shared by the claim theorems. -/

theorem vapp_ok {α β : Type} {f : Except (List VKind) (α → β)} {x : Except VKind α}
    {b : β} (h : vapp f x = .ok b) :
    ∃ g a, f = .ok g ∧ x = .ok a ∧ b = g a := by
  cases f with
  | ok g =>
    cases x with
    | ok a => exact ⟨g, a, rfl, rfl, by simpa [vapp] using h.symm⟩
    | error e => simp [vapp] at h
  | error es => cases x <;> simp [vapp] at h

theorem vapp_error_mem {α β : Type} {f : Except (List VKind) (α → β)} {x : Except VKind α}
    {e : VKind} (h : (∃ es, f = .error es ∧ e ∈ es) ∨ x = .error e) :
    ∃ es, vapp f x = .error es ∧ e ∈ es := by
  rcases h with ⟨es, hf, he⟩ | hx
  · subst hf
    cases x with
    | ok a => exact ⟨es, rfl, he⟩
    | error k => exact ⟨es ++ [k], rfl, List.mem_append_left _ he⟩
  · subst hx
    cases f with
    | ok g => exact ⟨[e], rfl, List.mem_singleton_self e⟩
    | error es => exact ⟨es ++ [e], rfl, List.mem_append_right _ (List.mem_singleton_self e)⟩

theorem IngredientType.label_fromLabel {s : String} {t : IngredientType}
    (h : IngredientType.fromLabel s = some t) : t.label = s := by
  unfold IngredientType.fromLabel at h
  have hb := List.find?_some h
  simp only [beq_iff_eq] at hb
  exact hb

theorem getSelectName_err {props : List (String × List (String × Json))} {key : String}
    {e : PyErr} (h : getSelectName props key = .error e) : e = .attributeError := by
  unfold getSelectName dictGet at h
  split at h
  · cases h
  · cases h
    rfl

/-! Claim theorems. -/

/-- C10: the required per-100g numeric fields are not range-checked —
for a record that is otherwise valid, `parse_ingredient_page` succeeds
even when a per-100g value is negative or zero, and the resulting
`Ingredient` carries the values unchanged. -/
theorem numeric_fields_not_range_checked (c p f cb : ℚ)
    (h : c ≤ 0 ∨ p ≤ 0 ∨ f ≤ 0 ∨ cb ≤ 0) :
    parse_ingredient_page (numPage c p f cb) =
      .ok ⟨"Thing", .other, .grams, c, p, f, cb, none, none, none⟩ := rfl

theorem numeric_fields_not_range_checked_witness :
    (-1 : ℚ) ≤ 0 ∧
    parse_ingredient_page (numPage (-1) 0 (-2) 3) =
      .ok ⟨"Thing", .other, .grams, -1, 0, -2, 3, none, none, none⟩ :=
  ⟨by norm_num, numeric_fields_not_range_checked (-1) 0 (-2) 3 (Or.inl (by norm_num))⟩

/-- C4 fails on the code: a record whose "Name" property holds a present
but empty title list makes extraction raise an uncaught `IndexError`
(`.get("title", [{}])[0]` only defends against an absent key, not an
empty list), so extraction is not total: neither the display-name chain
nor `parse_ingredient_page` produces an absence marker, and
`parse_ingredient_data` propagates the exception. -/
theorem empty_title_extraction_raises :
    getNameChain emptyTitlePage.properties = .error .indexError ∧
    parse_ingredient_page emptyTitlePage = .error .indexError ∧
    parse_ingredient_data [emptyTitlePage] = .error .indexError :=
  ⟨rfl, rfl, rfl⟩

/-- C5 fails on the code: a batch holding one fully valid record and one
record whose title list holds a bare string aborts with an uncaught
`AttributeError`, raised by the display-name expression that sits
outside the try block — so a record-level malformed structure aborts the
whole batch and no entity list is produced, although no transport
failure occurred and the first record is valid. -/
theorem record_failure_aborts_batch :
    parse_ingredient_page chickenPage = .ok chickenIngredient ∧
    parse_ingredient_data [chickenPage, strTitlePage] = .error .attributeError :=
  ⟨rfl, rfl⟩

/-- C2: whenever `parse_ingredient_data` returns an entity list, that
list is exactly the sequence of successfully parsed records in their
original relative order — records failing construction are excluded,
every other record contributes its entity, with no reordering and no
deduplication. -/
theorem batch_output_is_ordered_successes (pages : List Page) (out : List Ingredient)
    (logs : List Json) (h : parse_ingredient_data pages = .ok (out, logs)) :
    out = pages.filterMap (fun p => successOf (parse_ingredient_page p)) := by
  induction pages generalizing out logs with
  | nil =>
    simp only [parse_ingredient_data] at h
    cases h
    rfl
  | cons page rest ih =>
    cases hn : getNameChain page.properties with
    | error e => simp [parse_ingredient_data, hn] at h
    | ok pname =>
      cases hp : parse_ingredient_page page with
      | ok ing =>
        cases hr : parse_ingredient_data rest with
        | error e => simp [parse_ingredient_data, hn, hp, hr] at h
        | ok pr =>
          obtain ⟨ings, logs2⟩ := pr
          simp only [parse_ingredient_data, hn, hp, hr, Except.ok.injEq, Prod.mk.injEq] at h
          obtain ⟨h1, _⟩ := h
          subst h1
          simp [List.filterMap_cons, hp, successOf, ih ings logs2 hr]
      | error e =>
        cases hcaught : caught e with
        | true =>
          cases hr : parse_ingredient_data rest with
          | error e2 => simp [parse_ingredient_data, hn, hp, hcaught, hr] at h
          | ok pr =>
            obtain ⟨ings, logs2⟩ := pr
            simp only [parse_ingredient_data, hn, hp, hcaught, if_true, hr,
              Except.ok.injEq, Prod.mk.injEq] at h
            obtain ⟨h1, _⟩ := h
            subst h1
            simp [List.filterMap_cons, hp, successOf, ih ings logs2 hr]
        | false => simp [parse_ingredient_data, hn, hp, hcaught] at h

theorem batch_output_is_ordered_successes_witness :
    ([chickenIngredient, riceIngredient] : List Ingredient) =
      [chickenPage, noCalPage, ricePage].filterMap
        (fun p => successOf (parse_ingredient_page p)) :=
  batch_output_is_ordered_successes [chickenPage, noCalPage, ricePage]
    [chickenIngredient, riceIngredient] [Json.str "NoCal"] rfl

/-- C1 counterexample: a record with every required field present (name,
type, units, and the four per-100g numbers) and both enum fields in
range nevertheless fails construction, because its optional
"Shelf life room" number holds the fractional value 1/2, which the
`int | None` field rejects. -/
theorem fractional_shelf_life_fails_construction :
    getNameChain fractionalShelfPage.properties = .ok (.str "Chicken") ∧
    getSelectName fractionalShelfPage.properties "Type" = .ok (.str "Protein") ∧
    getSelectName fractionalShelfPage.properties "Units of Measurement" = .ok (.str "grams") ∧
    getNumber fractionalShelfPage.properties "Calories per 100g" = .num 165 ∧
    getNumber fractionalShelfPage.properties "Protein per 100g" = .num 31 ∧
    getNumber fractionalShelfPage.properties "Fat per 100g" = .num 4 ∧
    getNumber fractionalShelfPage.properties "Carbohydrate per 100g" = .num 0 ∧
    parse_ingredient_page fractionalShelfPage = .error (.validationError [.invalidType]) :=
  ⟨rfl, rfl, rfl, rfl, rfl, rfl, rfl, rfl⟩

/-- C1 as amended: for every raw record whose required fields are
present (name text, type and units strings, the four per-100g numbers)
with the enum-valued fields in range, and whose optional shelf-life
numbers are each absent or integral, `parse_ingredient_page` succeeds
and the resulting Ingredient's fields equal the extracted values, with
the units value lowercased. -/
theorem valid_record_parses (page : Page) (n ty u : String) (t : IngredientType)
    (c p f cb : ℚ) (r1 r2 r3 : Option Int)
    (hn : getNameChain page.properties = .ok (.str n))
    (hty : getSelectName page.properties "Type" = .ok (.str ty))
    (ht : IngredientType.fromLabel ty = some t)
    (hu : getSelectName page.properties "Units of Measurement" = .ok (.str u))
    (hul : lowerString u = "grams")
    (hc : getNumber page.properties "Calories per 100g" = .num c)
    (hp : getNumber page.properties "Protein per 100g" = .num p)
    (hf : getNumber page.properties "Fat per 100g" = .num f)
    (hcb : getNumber page.properties "Carbohydrate per 100g" = .num cb)
    (hr1 : validateOptInt (getNumber page.properties "Shelf life room") = .ok r1)
    (hr2 : validateOptInt (getNumber page.properties "Shelf life fridge") = .ok r2)
    (hr3 : validateOptInt (getNumber page.properties "Shelf life freezer") = .ok r3) :
    parse_ingredient_page page = .ok ⟨n, t, .grams, c, p, f, cb, r1, r2, r3⟩ ∧
    t.label = ty ∧ UnitOfMeasurement.value .grams = lowerString u := by
  refine ⟨?_, IngredientType.label_fromLabel ht, by rw [hul]; rfl⟩
  simp only [parse_ingredient_page, hn, hty, hu, hc, hp, hf, hcb, pyLower, hul]
  simp [Ingredient.construct, validateStr, validateType, ht, validateUnits,
    validateFloat, hr1, hr2, hr3, vapp]

theorem valid_record_parses_witness :
    parse_ingredient_page chickenPage = .ok chickenIngredient ∧
    IngredientType.protein.label = "Protein" ∧
    UnitOfMeasurement.value .grams = lowerString "grams" :=
  valid_record_parses chickenPage "Chicken" "Protein" "grams" .protein
    165 31 4 0 (some 1) (some 3) (some 90)
    rfl rfl rfl rfl rfl rfl rfl rfl rfl rfl rfl rfl

/-- C6: for every record whose units-of-measurement extraction yields
the absence marker (and whose display-name chain does not itself raise),
`parse_ingredient_page` fails — `None.lower()` raises `AttributeError` —
and `parse_ingredient_data` drops the record with a diagnostic carrying
its display name, producing no entity for it. -/
theorem missing_units_record_dropped (page : Page) (nv : Json)
    (hn : getNameChain page.properties = .ok nv)
    (hu : getSelectName page.properties "Units of Measurement" = .ok .null) :
    parse_ingredient_page page = .error .attributeError ∧
    parse_ingredient_data [page] = .ok ([], [nv]) := by
  have hparse : parse_ingredient_page page = .error .attributeError := by
    cases hty : getSelectName page.properties "Type" with
    | error e =>
      have he := getSelectName_err hty
      subst he
      simp only [parse_ingredient_page, hn, hty]
    | ok tv => simp only [parse_ingredient_page, hn, hty, hu, pyLower]
  refine ⟨hparse, ?_⟩
  simp only [parse_ingredient_data, hn, hparse, caught]
  rfl

theorem missing_units_record_dropped_witness :
    parse_ingredient_page nameOnlyPage = .error .attributeError ∧
    parse_ingredient_data [nameOnlyPage] = .ok ([], [Json.str "Mystery"]) :=
  missing_units_record_dropped nameOnlyPage (Json.str "Mystery") rfl rfl

/-- C7: enumeration membership is checked for the type and units fields:
whenever the type value is not the string of one of the twelve category
labels, or the units value is not the string of a unit member (only
"grams"), construction fails with a validation error among whose kinds
is the enum-membership violation. -/
theorem enum_violation_fails_with_invalid_enum
    (nameV typeV unitsV cal prot fatv carb slR slFr slFz : Json)
    (h : (∀ t : IngredientType, typeV ≠ .str t.label) ∨
         (∀ u : UnitOfMeasurement, unitsV ≠ .str u.value)) :
    ∃ es, Ingredient.construct nameV typeV unitsV cal prot fatv carb slR slFr slFz
        = .error es ∧ VKind.invalidEnum ∈ es := by
  rcases h with ht | hu
  · have h1 : validateType typeV = .error .invalidEnum := by
      cases typeV with
      | str s =>
        cases hf : IngredientType.fromLabel s with
        | none => simp [validateType, hf]
        | some t =>
          have hl := IngredientType.label_fromLabel hf
          exact absurd (by rw [hl]) (ht t)
      | null => rfl
      | bool b => rfl
      | num q => rfl
      | arr xs => rfl
      | obj fs => rfl
    unfold Ingredient.construct
    refine vapp_error_mem (Or.inl ?_)
    refine vapp_error_mem (Or.inl ?_)
    refine vapp_error_mem (Or.inl ?_)
    refine vapp_error_mem (Or.inl ?_)
    refine vapp_error_mem (Or.inl ?_)
    refine vapp_error_mem (Or.inl ?_)
    refine vapp_error_mem (Or.inl ?_)
    refine vapp_error_mem (Or.inl ?_)
    exact vapp_error_mem (Or.inr h1)
  · have h1 : validateUnits unitsV = .error .invalidEnum := by
      cases unitsV with
      | str s =>
        have hs : s ≠ "grams" := fun hg => hu .grams (by rw [hg]; rfl)
        simp [validateUnits, hs]
      | null => rfl
      | bool b => rfl
      | num q => rfl
      | arr xs => rfl
      | obj fs => rfl
    unfold Ingredient.construct
    refine vapp_error_mem (Or.inl ?_)
    refine vapp_error_mem (Or.inl ?_)
    refine vapp_error_mem (Or.inl ?_)
    refine vapp_error_mem (Or.inl ?_)
    refine vapp_error_mem (Or.inl ?_)
    refine vapp_error_mem (Or.inl ?_)
    refine vapp_error_mem (Or.inl ?_)
    exact vapp_error_mem (Or.inr h1)

theorem enum_violation_fails_with_invalid_enum_witness :
    ∃ es, Ingredient.construct (.str "X") (.str "Metal") (.str "grams")
        (.num 1) (.num 1) (.num 1) (.num 1) .null .null .null
      = .error es ∧ VKind.invalidEnum ∈ es :=
  enum_violation_fails_with_invalid_enum (.str "X") (.str "Metal") (.str "grams")
    (.num 1) (.num 1) (.num 1) (.num 1) .null .null .null
    (Or.inl (fun t => by cases t <;> simp [IngredientType.label]))

/-- C8 counterexample: a record whose title text content is the empty
string parses successfully into an Ingredient whose name is the empty
string — the entity name is not required to be non-empty. -/
theorem empty_name_accepted :
    parse_ingredient_page emptyNamePage = .ok emptyNameIngredient ∧
    emptyNameIngredient.name = "" :=
  ⟨rfl, rfl⟩

/-- C8 as amended: every successfully constructed Ingredient's name is
the extracted title text — a string, possibly empty (absent or non-text
name values fail construction, but the empty string is accepted). -/
theorem success_name_is_extracted_string (page : Page) (ing : Ingredient)
    (h : parse_ingredient_page page = .ok ing) :
    getNameChain page.properties = .ok (.str ing.name) := by
  cases hn : getNameChain page.properties with
  | error e => simp [parse_ingredient_page, hn] at h
  | ok nv =>
    cases hty : getSelectName page.properties "Type" with
    | error e => simp [parse_ingredient_page, hn, hty] at h
    | ok tv =>
      cases hu : getSelectName page.properties "Units of Measurement" with
      | error e => simp [parse_ingredient_page, hn, hty, hu] at h
      | ok uv =>
        cases hl : pyLower uv with
        | error e => simp [parse_ingredient_page, hn, hty, hu, hl] at h
        | ok lv =>
          simp only [parse_ingredient_page, hn, hty, hu, hl] at h
          cases hc : Ingredient.construct nv tv lv
              (getNumber page.properties "Calories per 100g")
              (getNumber page.properties "Protein per 100g")
              (getNumber page.properties "Fat per 100g")
              (getNumber page.properties "Carbohydrate per 100g")
              (getNumber page.properties "Shelf life room")
              (getNumber page.properties "Shelf life fridge")
              (getNumber page.properties "Shelf life freezer") with
          | error es => rw [hc] at h; cases h
          | ok ing2 =>
            rw [hc] at h
            cases h
            unfold Ingredient.construct at hc
            obtain ⟨g9, a10, h9, _, rfl⟩ := vapp_ok hc
            obtain ⟨g8, a9, h8, _, rfl⟩ := vapp_ok h9
            obtain ⟨g7, a8, h7, _, rfl⟩ := vapp_ok h8
            obtain ⟨g6, a7, h6, _, rfl⟩ := vapp_ok h7
            obtain ⟨g5, a6, h5, _, rfl⟩ := vapp_ok h6
            obtain ⟨g4, a5, h4, _, rfl⟩ := vapp_ok h5
            obtain ⟨g3, a4, h3, _, rfl⟩ := vapp_ok h4
            obtain ⟨g2, a3, h2, _, rfl⟩ := vapp_ok h3
            obtain ⟨g1, a2, h1, _, rfl⟩ := vapp_ok h2
            obtain ⟨g0, a1, h0, hv, rfl⟩ := vapp_ok h1
            cases h0
            cases nv with
            | str s => cases hv; rfl
            | null => cases hv
            | bool b => cases hv
            | num q => cases hv
            | arr xs => cases hv
            | obj fs => cases hv

theorem success_name_is_extracted_string_witness :
    getNameChain chickenPage.properties = .ok (.str chickenIngredient.name) :=
  success_name_is_extracted_string chickenPage chickenIngredient rfl

/-- Core pagination invariant: starting the loop at the k-th cursor of
the chain, with enough fuel, visits exactly the responses k, ..., N-1 of
the chain, returning their concatenated record batches and the exact
list of cursors requested. -/
theorem getPagesLoop_chain (fetch : Option String → NotionAPIDatabaseResponse) (N : Nat)
    (hmore : ∀ i, i + 1 < N → (fetch (cursorChain fetch i)).has_more = true)
    (hlast : (fetch (cursorChain fetch (N - 1))).has_more = false) :
    ∀ fuel k, k < N → N - k ≤ fuel →
    getPagesLoop fetch fuel (cursorChain fetch k) =
      some ((List.range' k (N - k)).flatMap (fun i => (fetch (cursorChain fetch i)).results),
            (List.range' k (N - k)).map (cursorChain fetch)) := by
  intro fuel
  induction fuel with
  | zero => intro k hk hf; omega
  | succ fuel ih =>
    intro k hk hf
    by_cases hkN : k + 1 < N
    · have hm := hmore k hkN
      have hrec := ih (k + 1) hkN (by omega)
      have hcur : (fetch (cursorChain fetch k)).next_cursor = cursorChain fetch (k + 1) := rfl
      have hsub : N - k = (N - (k + 1)) + 1 := by omega
      rw [hsub, List.range'_succ]
      simp only [getPagesLoop, hm, if_true, hcur, hrec, List.flatMap_cons, List.map_cons]
    · have hke : k = N - 1 := by omega
      subst hke
      have hsub : N - (N - 1) = 1 := by omega
      rw [hsub]
      simp only [getPagesLoop, hlast, List.range'_one, List.flatMap_cons, List.flatMap_nil,
        List.append_nil, List.map_cons, List.map_nil, Bool.false_eq_true, if_false]

/-- C3: for a source of N pages whose last response alone reports no
further pages, the loop issues exactly the N requests of the cursor
chain (the first with no cursor, each later one with the previous
response's continuation cursor), concatenates the N record batches in
order, terminates, and `get_ingredients_data` maps the accumulated
records to entities.  `fuel` only bounds the embedding's recursion: the
result holds for every fuel of at least N. -/
theorem pagination_fetches_each_page_in_order
    (fetch : Option String → NotionAPIDatabaseResponse) (N fuel : Nat)
    (hN : 0 < N) (hfuel : N ≤ fuel)
    (hmore : ∀ i, i + 1 < N → (fetch (cursorChain fetch i)).has_more = true)
    (hlast : (fetch (cursorChain fetch (N - 1))).has_more = false) :
    getPagesLoop fetch fuel none =
      some ((List.range N).flatMap (fun i => (fetch (cursorChain fetch i)).results),
            (List.range N).map (cursorChain fetch)) ∧
    get_ingredients_data fetch fuel =
      some (parse_ingredient_data
        ((List.range N).flatMap (fun i => (fetch (cursorChain fetch i)).results))) := by
  have h := getPagesLoop_chain fetch N hmore hlast fuel 0 hN (by omega)
  rw [show cursorChain fetch 0 = none from rfl] at h
  rw [Nat.sub_zero, ← List.range_eq_range'] at h
  exact ⟨h, by rw [get_ingredients_data, h]⟩

theorem pagination_fetches_each_page_in_order_witness :
    getPagesLoop fetchTwo 2 none =
      some ([chickenPage, ricePage], [none, some "cursor-1"]) ∧
    get_ingredients_data fetchTwo 2 =
      some (.ok ([chickenIngredient, riceIngredient], [])) :=
  pagination_fetches_each_page_in_order fetchTwo 2 2 (by omega) (by omega)
    (fun i hi => by
      have h0 : i = 0 := by omega
      subst h0
      rfl)
    rfl

/-- C9: the loop never repeats a request.  Whenever the source hands out
fresh continuation cursors (none null, no two equal while more pages
remain), the list of requests the loop actually sends has no duplicates,
and the initial no-cursor request is sent exactly once.  The theorem
holds for every page count N, so the loop assumes no bound on the number
of pages. -/
theorem pagination_never_repeats_request
    (fetch : Option String → NotionAPIDatabaseResponse) (N fuel : Nat)
    (hN : 0 < N) (hfuel : N ≤ fuel)
    (hmore : ∀ i, i + 1 < N → (fetch (cursorChain fetch i)).has_more = true)
    (hlast : (fetch (cursorChain fetch (N - 1))).has_more = false)
    (hfresh : ∀ i, i + 1 < N → (fetch (cursorChain fetch i)).next_cursor ≠ none)
    (hdistinct : ∀ i j, i + 1 < N → j + 1 < N →
      (fetch (cursorChain fetch i)).next_cursor = (fetch (cursorChain fetch j)).next_cursor →
      i = j) :
    ∃ records, getPagesLoop fetch fuel none =
        some (records, (List.range N).map (cursorChain fetch)) ∧
      ((List.range N).map (cursorChain fetch)).Nodup ∧
      ((List.range N).map (cursorChain fetch)).count none = 1 := by
  have hloop := getPagesLoop_chain fetch N hmore hlast fuel 0 hN (by omega)
  rw [show cursorChain fetch 0 = none from rfl] at hloop
  rw [Nat.sub_zero, ← List.range_eq_range'] at hloop
  refine ⟨_, hloop, ?_, ?_⟩
  · refine (List.nodup_range N).map_on ?_
    intro x hx y hy hxy
    rw [List.mem_range] at hx hy
    match x, y with
    | 0, 0 => rfl
    | 0, j + 1 =>
      rw [show cursorChain fetch 0 = none from rfl] at hxy
      exact absurd hxy.symm (hfresh j hy)
    | i + 1, 0 =>
      rw [show cursorChain fetch 0 = none from rfl] at hxy
      exact absurd hxy (hfresh i hx)
    | i + 1, j + 1 =>
      have := hdistinct i j hx hy hxy
      omega
  · obtain ⟨M, rfl⟩ : ∃ M, N = M + 1 := ⟨N - 1, by omega⟩
    rw [List.range_eq_range', List.range'_succ, List.map_cons]
    rw [show cursorChain fetch 0 = none from rfl]
    rw [List.count_cons_self]
    have hzero : ((List.range' 1 M).map (cursorChain fetch)).count none = 0 := by
      rw [List.count_eq_zero]
      intro hmem
      obtain ⟨j, hj, hchain⟩ := List.mem_map.mp hmem
      rw [List.mem_range'] at hj
      obtain ⟨i, hi, hji⟩ := hj
      have hji' : j = i + 1 := by omega
      subst hji'
      exact hfresh i (by omega) hchain
    rw [hzero]

theorem pagination_never_repeats_request_witness :
    ∃ records, getPagesLoop fetchTwo 2 none =
        some (records, [none, some "cursor-1"]) ∧
      ([none, some "cursor-1"] : List (Option String)).Nodup ∧
      ([none, some "cursor-1"] : List (Option String)).count none = 1 :=
  pagination_never_repeats_request fetchTwo 2 2 (by omega) (by omega)
    (fun i hi => by
      have h0 : i = 0 := by omega
      subst h0
      rfl)
    rfl
    (fun i hi => by
      have h0 : i = 0 := by omega
      subst h0
      simp [cursorChain, fetchTwo])
    (fun i j hi hj _ => by omega)

end RecipeBuddy
